import Mathlib

/- Shallow embedding of the Socratic-Whiteboard tutoring client.

   Embedded sources:
   - ChatInterface (src/unnamed/part_001). Two variants of this component are
     present in the repository. The variant with the hint and reset controls
     (second document of the file, lines 183-440) yields processMessage,
     handleSend, handleHint, handleNewImage and handleReset below; the earlier
     variant (first document, lines 1-183) yields handleSendV1, whose guard and
     default-prompt substitution differ.
   - Gemini request construction (src/unnamed/part_000, sendMessageToGemini,
     the variant that filters the welcome turn out of the history): the
     buildContents definition models the contents array, and geminiText models
     the returned string on a successful remote call.
   - ImageUploader (src/components/ImageUploader.tsx): processFile, stopCamera
     and capturePhoto.

   Modelling conventions: the asynchronous remote call is collapsed into an
   explicit outcome parameter (Except Unit String, the error payload being
   irrelevant to the catch blocks); reads of the clock (Date.now) become an
   explicit now parameter, with the second read for the reply id rendered as
   now + 1; the camera stream is a held-handle flag (streamRef, true while
   streamRef.current is non-null) together with the running flags of the
   device tracks; React state, props and refs are folded into one AppState
   record. The Message and Role shapes are taken from their uses across the
   components. The onClearBoard callback invoked by the reset handler is
   supplied by the owner of the attachment state and is modelled, per its use,
   as clearing the uploaded image. -/

namespace SocraticWhiteboard

inductive Role where
  | user
  | model
deriving DecidableEq, Repr

structure Message where
  id : String
  role : Role
  text : String
  timestamp : Nat
deriving DecidableEq, Repr

structure UploadedImage where
  previewUrl : String
  base64 : String
  mimeType : String
deriving DecidableEq, Repr

structure FileInfo where
  ftype : String
  size : Nat
  previewUrl : String
  base64 : String
deriving DecidableEq, Repr

/-- Combined client state: chat state (messages, input, isLoading,
prevImageRef), the attachment owned by the App (uploadedImage), and the
uploader and camera state of ImageUploader. -/
structure AppState where
  messages : List Message
  input : String
  isLoading : Bool
  prevImageRef : Option String
  uploadedImage : Option UploadedImage
  uploaderError : Option String
  streamRef : Bool
  tracks : List Bool
  isCameraActive : Bool
deriving DecidableEq, Repr

/-- Welcome text of the ChatInterface variant with hint and reset controls. -/
def welcomeText : String :=
  "Hello! I\x27m your Socratic Tutor. Upload a problem or ask me a question, and let\x27s work through it together."

/-- Error reply appended by processMessage when the remote call throws. -/
def errorReplyText : String :=
  "I encountered an error trying to analyze that. Please check your connection and try again."

/-- Error reply of the earlier ChatInterface variant. -/
def errorReplyTextV1 : String :=
  "I encountered an error trying to analyze that. Please try again."

/-- Prompt injected by the auto-analysis trigger. -/
def autoAnalyzeText : String :=
  "I\x27ve uploaded an image. Can you analyze this problem and guide me?"

/-- Prompt injected by the hint button. -/
def hintText : String :=
  "I\x27m stuck. Could you give me a specific hint to help me move forward?"

/-- Default user-turn text substituted by the earlier variant when the input
is blank but an image is attached. -/
def defaultImageText : String :=
  "I\x27ve uploaded an image. Can you help me with this?"

/-- Fallback returned by sendMessageToGemini when the response text is empty
or missing. -/
def fallbackText : String :=
  "I\x27m sorry, I couldn\x27t generate a response. Please try again."

def unsupportedTypeText : String :=
  "Please upload an image file (JPEG, PNG, WEBP)."

def tooLargeText : String :=
  "Image is too large. Please upload an image smaller than 10MB."

def readFailText : String :=
  "Failed to read file."

def captureFailText : String :=
  "Failed to capture image."

/-- Whitespace recognized by the string trim of the host language. -/
def isJsWhitespace (c : Char) : Bool :=
  c == ' ' || c == '\t' || c == '\n' || c == '\r' || c == '\x0b' || c == '\x0c'

def jsTrimLeft : List Char → List Char
  | [] => []
  | c :: cs => if isJsWhitespace c then jsTrimLeft cs else c :: cs

/-- Model of the trim method of the host language: drops leading and trailing
whitespace. -/
def jsTrim (s : String) : String :=
  ⟨(jsTrimLeft ((jsTrimLeft s.data).reverse)).reverse⟩

def startsWithChars : List Char → List Char → Bool
  | _, [] => true
  | [], _ :: _ => false
  | c :: cs, p :: ps => c == p && startsWithChars cs ps

/-- Model of the startsWith method of the host language. -/
def jsStartsWith (s pat : String) : Bool := startsWithChars s.data pat.data

/-- One entry of the parts array of a request content. -/
inductive ContentPart where
  | text (s : String)
  | inlineData (mimeType : String) (data : String)
deriving DecidableEq, Repr

/-- One entry of the contents array sent to the remote model. -/
structure Content where
  role : Role
  parts : List ContentPart
deriving DecidableEq, Repr

/-- Parts of the final user entry: the inline image (when both payload and
mime type are present and nonempty, matching the truthiness test of the
source) precedes the text part. -/
def currentParts (newMessage : String) (imageBase64 mimeType : Option String) :
    List ContentPart :=
  match imageBase64, mimeType with
  | some d, some mt =>
      if d != "" && mt != "" then
        [ContentPart.inlineData mt d, ContentPart.text newMessage]
      else [ContentPart.text newMessage]
  | _, _ => [ContentPart.text newMessage]

def currentContent (newMessage : String) (imageBase64 mimeType : Option String) :
    Content :=
  ⟨Role.user, currentParts newMessage imageBase64 mimeType⟩

/-- The contents array built by the sendMessageToGemini variant of
src/unnamed/part_000: the history is filtered by the reserved sentinel id,
mapped to role-tagged text parts, and the current user entry is appended. -/
def buildContents (history : List Message) (newMessage : String)
    (imageBase64 mimeType : Option String) : List Content :=
  ((history.filter (fun m => m.id != "welcome")).map
      (fun m => ⟨m.role, [ContentPart.text m.text]⟩))
    ++ [currentContent newMessage imageBase64 mimeType]

/-- The contents array built by the sendMessageToGemini variant of
src/services/geminiService.ts (lines 45-66): the history is mapped to
role-tagged text parts with no filter at all, and the current user entry is
appended. -/
def buildContentsNoFilter (history : List Message) (newMessage : String)
    (imageBase64 mimeType : Option String) : List Content :=
  (history.map (fun m => ⟨m.role, [ContentPart.text m.text]⟩))
    ++ [currentContent newMessage imageBase64 mimeType]

/-- Return value of sendMessageToGemini on a non-throwing remote call:
response.text when truthy, else the fixed fallback. -/
def geminiText (responseText : Option String) : String :=
  match responseText with
  | some t => if t = "" then fallbackText else t
  | none => fallbackText

/-- processMessage of the hint-and-reset ChatInterface variant, with the
request cycle collapsed: the guard rejects while loading and on blank text;
otherwise the user turn is appended, the input is cleared unless the call was
auto-triggered, and the outcome of the remote call appends the reply turn
(the returned text, or the fixed error reply in the catch block) with the
loading flag cleared by the finally block. -/
def processMessage (s : AppState) (now : Nat) (text : String)
    (isAutoTrigger : Bool) (outcome : Except Unit String) : AppState :=
  if s.isLoading then s
  else if jsTrim text = "" then s
  else
    match outcome with
    | Except.ok responseText =>
        { s with
          messages := (s.messages ++ [⟨toString now, Role.user, jsTrim text, now⟩])
              ++ [⟨toString (now + 1), Role.model, responseText, now⟩],
          input := if isAutoTrigger then s.input else "",
          isLoading := false }
    | Except.error _ =>
        { s with
          messages := (s.messages ++ [⟨toString now, Role.user, jsTrim text, now⟩])
              ++ [⟨toString (now + 1), Role.model, errorReplyText, now⟩],
          input := if isAutoTrigger then s.input else "",
          isLoading := false }

def handleSend (s : AppState) (now : Nat) (outcome : Except Unit String) :
    AppState :=
  processMessage s now s.input false outcome

def handleHint (s : AppState) (now : Nat) (outcome : Except Unit String) :
    AppState :=
  processMessage s now hintText true outcome

/-- Delivery of a changed uploadedImage prop to the auto-analysis effect. The
returned number counts the auto-trigger invocations of processMessage issued
by this delivery (0 or 1). -/
def handleNewImage (s : AppState) (img : Option UploadedImage) (now : Nat)
    (outcome : Except Unit String) : AppState × Nat :=
  match img with
  | some u =>
      if some u.previewUrl ≠ s.prevImageRef then
        (processMessage
            { s with uploadedImage := some u, prevImageRef := some u.previewUrl }
            now autoAnalyzeText true outcome, 1)
      else ({ s with uploadedImage := some u }, 0)
  | none => ({ s with uploadedImage := none, prevImageRef := none }, 0)

/-- handleReset: gated by the window.confirm dialog; when confirmed it
replaces the store with a fresh welcome turn, clears the input, resets the
image tracking ref and invokes onClearBoard (clearing the attachment). -/
def handleReset (s : AppState) (now : Nat) (confirmed : Bool) : AppState :=
  if confirmed then
    { s with
      messages := [⟨"welcome", Role.model, welcomeText, now⟩],
      input := "", prevImageRef := none, uploadedImage := none }
  else s

/-- Text of the user turn built by the earlier variant of handleSend:
userText, or the default image prompt when blank and an image is attached. -/
def v1MessageText (s : AppState) : String :=
  if jsTrim s.input = "" then
    match s.uploadedImage with
    | some _ => defaultImageText
    | none => ""
  else jsTrim s.input

/-- handleSend of the earlier ChatInterface variant (first document of
src/unnamed/part_001): the guard rejects blank input with no image, or while
loading; otherwise a user turn with v1MessageText is appended, the input is
cleared, and the remote outcome appends the reply turn. -/
def handleSendV1 (s : AppState) (now : Nat) (outcome : Except Unit String) :
    AppState :=
  if (jsTrim s.input = "" ∧ s.uploadedImage = none) ∨ s.isLoading = true then s
  else
    match outcome with
    | Except.ok responseText =>
        { s with
          messages := (s.messages ++ [⟨toString now, Role.user, v1MessageText s, now⟩])
              ++ [⟨toString (now + 1), Role.model, responseText, now⟩],
          input := "", isLoading := false }
    | Except.error _ =>
        { s with
          messages := (s.messages ++ [⟨toString now, Role.user, v1MessageText s, now⟩])
              ++ [⟨toString (now + 1), Role.model, errorReplyTextV1, now⟩],
          input := "", isLoading := false }

/-- processFile of ImageUploader: rejects non-image mime types, then files
over 10 MiB; otherwise the read either completes (setting the attachment via
onImageSelect) or fails with the read error. -/
def processFile (s : AppState) (f : FileInfo) (readOk : Bool) : AppState :=
  if ! jsStartsWith f.ftype "image/" then
    { s with uploaderError := some unsupportedTypeText }
  else if f.size > 10 * 1024 * 1024 then
    { s with uploaderError := some tooLargeText }
  else if readOk then
    { s with
      uploaderError := none
      uploadedImage := some ⟨f.previewUrl, f.base64, f.ftype⟩ }
  else { s with uploaderError := some readFailText }

/-- stopCamera: stops every track of the held stream, clears the handle and
leaves the camera view. -/
def stopCamera (s : AppState) : AppState :=
  if s.streamRef then
    { s with
      tracks := s.tracks.map (fun _ => false)
      streamRef := false
      isCameraActive := false }
  else { s with isCameraActive := false }

/-- capturePhoto, from the point where toBlob delivers its result: a blob is
wrapped into a jpeg file, processed, and the camera stopped; a missing blob
only sets the capture error. -/
def capturePhoto (s : AppState) (blob : Option FileInfo) (readOk : Bool) :
    AppState :=
  match blob with
  | some f => stopCamera (processFile s { f with ftype := "image/jpeg" } readOk)
  | none => { s with uploaderError := some captureFailText }

/-- Fresh client state. -/
def sInit : AppState :=
  { messages := [], input := "", isLoading := false, prevImageRef := none,
    uploadedImage := none, uploaderError := none, streamRef := false,
    tracks := [], isCameraActive := false }

def img0 : UploadedImage := ⟨"blob:preview-0", "b64data", "image/png"⟩

def welcomeMsg0 : Message := ⟨"welcome", Role.model, welcomeText, 0⟩

/-- State with a blank input, a welcome turn and an attached image. -/
def sC4 : AppState := { sInit with uploadedImage := some img0, messages := [welcomeMsg0] }

/-- State with a request in flight. -/
def sPend : AppState :=
  { sInit with
    isLoading := true
    messages := [welcomeMsg0, ⟨"1", Role.user, "q", 1⟩]
    input := "draft"
    prevImageRef := some "blob:preview-0"
    uploadedImage := some img0 }

/-- State with a live camera holding a two-track stream. -/
def sCam : AppState :=
  { sInit with streamRef := true, tracks := [true, true], isCameraActive := true }

/-- A 10 MiB + 1 byte file with a non-image mime type. -/
def fOversize : FileInfo := ⟨"text/plain", 10 * 1024 * 1024 + 1, "blob:big", "big"⟩

/-- A 12 MiB jpeg. -/
def fBigJpeg : FileInfo := ⟨"image/jpeg", 12 * 1024 * 1024, "blob:jpeg", "jb"⟩

/-- A small captured frame. -/
def fFrame : FileInfo := ⟨"image/jpeg", 1000, "blob:frame", "fb"⟩

/- ------------------------------------------------------------------ -/
/- Helper lemmas                                                      -/
/- ------------------------------------------------------------------ -/

theorem processMessage_loading (s : AppState) (now : Nat) (text : String)
    (auto : Bool) (o : Except Unit String) (h : s.isLoading = true) :
    processMessage s now text auto o = s := by
  simp [processMessage, h]

theorem processMessage_prevImageRef (s : AppState) (now : Nat) (text : String)
    (auto : Bool) (o : Except Unit String) :
    (processMessage s now text auto o).prevImageRef = s.prevImageRef := by
  unfold processMessage
  split
  · rfl
  · split
    · rfl
    · split <;> rfl

theorem processFile_streamRef (s : AppState) (f : FileInfo) (r : Bool) :
    (processFile s f r).streamRef = s.streamRef := by
  unfold processFile
  split
  · rfl
  · split
    · rfl
    · split <;> rfl

theorem processFile_tracks (s : AppState) (f : FileInfo) (r : Bool) :
    (processFile s f r).tracks = s.tracks := by
  unfold processFile
  split
  · rfl
  · split
    · rfl
    · split <;> rfl

theorem handleNewImage_prevImageRef (s : AppState) (u : UploadedImage)
    (now : Nat) (o : Except Unit String) :
    (handleNewImage s (some u) now o).1.prevImageRef = some u.previewUrl := by
  simp only [handleNewImage]
  split
  · simp [processMessage_prevImageRef]
  · next hcond =>
    simp only [ne_eq, not_not] at hcond
    exact hcond.symm

/- ------------------------------------------------------------------ -/
/- Claims                                                             -/
/- ------------------------------------------------------------------ -/

/-- Claim C1 counterexample: the caller passes the full messages array,
whose first element is the welcome turn, as the history, and the
sendMessageToGemini variant of src/services/geminiService.ts maps that
history with no welcome filter; at a history holding the welcome turn its
contents array contains the welcome-derived entry, so the claim that the
payload excludes the welcome turn for all inputs fails there. -/
theorem C1_counterexample :
    welcomeMsg0.id = "welcome"
    ∧ ⟨Role.model, [ContentPart.text welcomeMsg0.text]⟩
        ∈ buildContentsNoFilter [welcomeMsg0] "q" none none := by decide

/-- Claim C1, amended: in the sendMessageToGemini variant of
src/unnamed/part_000, which filters the history by the reserved sentinel id,
the contents array never contains the synthetic welcome turn: every entry is
either the final current-user entry or the image of a history turn whose id
is not the sentinel id. The variant of src/services/geminiService.ts maps
the history unfiltered and replays the welcome turn. -/
theorem C1_welcome_excluded (history : List Message) (newMessage : String)
    (imageBase64 mimeType : Option String) (c : Content)
    (h : c ∈ buildContents history newMessage imageBase64 mimeType) :
    c = currentContent newMessage imageBase64 mimeType
    ∨ ∃ m, m ∈ history ∧ m.id ≠ "welcome" ∧ c = ⟨m.role, [ContentPart.text m.text]⟩ := by
  unfold buildContents at h
  rcases List.mem_append.mp h with h1 | h2
  · right
    rcases List.mem_map.mp h1 with ⟨m, hm, hc⟩
    have hmf := List.mem_filter.mp hm
    refine ⟨m, hmf.1, ?_, hc.symm⟩
    simpa using hmf.2
  · left
    simpa using h2

/-- Witness for C1 on a history holding only the welcome turn. -/
theorem C1_witness :
    currentContent "q" none none = currentContent "q" none none
    ∨ ∃ m, m ∈ [welcomeMsg0] ∧ m.id ≠ "welcome"
        ∧ currentContent "q" none none = ⟨m.role, [ContentPart.text m.text]⟩ :=
  C1_welcome_excluded [welcomeMsg0] "q" none none
    (currentContent "q" none none) (by decide)

/-- Claim C2 counterexample: on the frame-encoding-failure exit path of
capturePhoto (toBlob delivers no blob) the stream handle is not cleared and
no track is stopped, so the claim that every exit path releases the device
fails at this input. -/
theorem C2_counterexample :
    sCam.streamRef = true
    ∧ (capturePhoto sCam none true).streamRef = true
    ∧ (capturePhoto sCam none true).tracks = [true, true]
    ∧ (capturePhoto sCam none true).isCameraActive = true := by decide

/-- Claim C2, amended: explicit close and successful capture release the
device (handle cleared, every track stopped), but the frame-encoding-failure
path leaves the stream untouched. -/
theorem C2_amended_release (s : AppState) (f : FileInfo) (r : Bool)
    (h : s.streamRef = true) :
    (stopCamera s).streamRef = false
    ∧ (stopCamera s).tracks = s.tracks.map (fun _ => false)
    ∧ (capturePhoto s (some f) r).streamRef = false
    ∧ (capturePhoto s (some f) r).tracks = s.tracks.map (fun _ => false)
    ∧ (capturePhoto s none r).streamRef = s.streamRef
    ∧ (capturePhoto s none r).tracks = s.tracks := by
  have h1 : (processFile s { f with ftype := "image/jpeg" } r).streamRef = true := by
    rw [processFile_streamRef, h]
  refine ⟨?_, ?_, ?_, ?_, rfl, rfl⟩
  · simp [stopCamera, h]
  · simp [stopCamera, h]
  · simp [capturePhoto, stopCamera, h1]
  · simp [capturePhoto, stopCamera, h1, processFile_tracks]

/-- Witness for the amended C2 at the concrete live-camera state. -/
theorem C2_witness :
    (stopCamera sCam).streamRef = false
    ∧ (stopCamera sCam).tracks = sCam.tracks.map (fun _ => false)
    ∧ (capturePhoto sCam (some fFrame) true).streamRef = false
    ∧ (capturePhoto sCam (some fFrame) true).tracks = sCam.tracks.map (fun _ => false)
    ∧ (capturePhoto sCam none true).streamRef = sCam.streamRef
    ∧ (capturePhoto sCam none true).tracks = sCam.tracks :=
  C2_amended_release sCam fFrame true rfl

/-- Claim C3 counterexample: handleReset has no guard on the loading flag, so
a confirmed reset issued while a request is in flight replaces the messages,
clears the input and resets the tracking, contradicting the claim that reset
while Pending leaves all state unchanged. -/
theorem C3_counterexample :
    sPend.isLoading = true
    ∧ (handleReset sPend 9 true).messages ≠ sPend.messages
    ∧ (handleReset sPend 9 true).input ≠ sPend.input
    ∧ (handleReset sPend 9 true).prevImageRef ≠ sPend.prevImageRef
    ∧ (handleReset sPend 9 true).uploadedImage ≠ sPend.uploadedImage := by decide

/-- Claim C3, amended: reset is gated only by the confirmation dialog. A
declined confirmation leaves the state unchanged (whether Pending or not); a
confirmed reset, even while Pending, replaces the store with a single fresh
welcome turn and clears input, attachment and tracking, while the loading
flag is untouched. -/
theorem C3_amended_reset (s : AppState) (now : Nat) :
    handleReset s now false = s
    ∧ (handleReset s now true).messages = [⟨"welcome", Role.model, welcomeText, now⟩]
    ∧ (handleReset s now true).input = ""
    ∧ (handleReset s now true).prevImageRef = none
    ∧ (handleReset s now true).uploadedImage = none
    ∧ (handleReset s now true).isLoading = s.isLoading :=
  ⟨rfl, rfl, rfl, rfl, rfl, rfl⟩

/-- Claim C4 counterexample: at a state with a blank input and an attached
image, the user turn appended by the earlier send handler carries the text
of defaultImageText, which is not the string quoted by the claim. -/
theorem C4_counterexample :
    (handleSendV1 sC4 1 (Except.ok "ok")).messages.get? 1
      = some ⟨"1", Role.user, defaultImageText, 1⟩
    ∧ defaultImageText ≠ "I\x27ve uploaded an image, please help me with this" := by
  decide

/-- Claim C4, amended: with an active attachment and blank input, the earlier
send handler appends a USER turn whose text is the fixed default prompt
defaultImageText (a nonempty string), and the request proceeds to a reply
turn. -/
theorem C4_amended_default_prompt (s : AppState) (now : Nat)
    (o : Except Unit String) (h1 : jsTrim s.input = "")
    (h2 : s.uploadedImage.isSome = true) (h3 : s.isLoading = false) :
    defaultImageText ≠ ""
    ∧ ∃ reply : Message,
        (handleSendV1 s now o).messages
          = s.messages ++ [⟨toString now, Role.user, defaultImageText, now⟩, reply]
        ∧ reply.role = Role.model := by
  obtain ⟨u, hu⟩ := Option.isSome_iff_exists.mp h2
  have hguard : ¬((jsTrim s.input = "" ∧ s.uploadedImage = none) ∨ s.isLoading = true) := by
    rintro (⟨-, hnone⟩ | hload)
    · rw [hu] at hnone; exact Option.noConfusion hnone
    · rw [h3] at hload; exact Bool.noConfusion hload
  have htext : v1MessageText s = defaultImageText := by
    unfold v1MessageText
    rw [if_pos h1, hu]
  refine ⟨by decide, ?_⟩
  unfold handleSendV1
  rw [if_neg hguard]
  cases o with
  | ok r =>
      exact ⟨⟨toString (now + 1), Role.model, r, now⟩,
        by simp [htext, List.append_assoc], rfl⟩
  | error e =>
      exact ⟨⟨toString (now + 1), Role.model, errorReplyTextV1, now⟩,
        by simp [htext, List.append_assoc], rfl⟩

/-- Witness for the amended C4 at the concrete blank-input state with an
attached image. -/
theorem C4_witness :
    defaultImageText ≠ ""
    ∧ ∃ reply : Message,
        (handleSendV1 sC4 1 (Except.ok "ok")).messages
          = sC4.messages ++ [⟨toString 1, Role.user, defaultImageText, 1⟩, reply]
        ∧ reply.role = Role.model :=
  C4_amended_default_prompt sC4 1 (Except.ok "ok") rfl rfl rfl

/-- Claim C5: when the remote call throws, processMessage appends the user
turn followed by exactly one MODEL turn carrying the fixed error reply, and
the loading flag ends false on failure as well as on success; the failure is
absorbed (the transition is a total function into AppState). -/
theorem C5_failure_recovery (s : AppState) (now : Nat) (text : String)
    (auto : Bool) (h1 : s.isLoading = false) (h2 : jsTrim text ≠ "") :
    (processMessage s now text auto (Except.error ())).messages
      = s.messages ++ [⟨toString now, Role.user, jsTrim text, now⟩,
          ⟨toString (now + 1), Role.model, errorReplyText, now⟩]
    ∧ (processMessage s now text auto (Except.error ())).isLoading = false
    ∧ ∀ r : String, (processMessage s now text auto (Except.ok r)).isLoading = false := by
  refine ⟨?_, ?_, ?_⟩ <;> simp [processMessage, h1, h2]

/-- Witness for C5 at the fresh state. -/
theorem C5_witness :
    (processMessage sInit 0 "hi" false (Except.error ())).messages
      = sInit.messages ++ [⟨toString 0, Role.user, jsTrim "hi", 0⟩,
          ⟨toString (0 + 1), Role.model, errorReplyText, 0⟩]
    ∧ (processMessage sInit 0 "hi" false (Except.error ())).isLoading = false
    ∧ ∀ r : String, (processMessage sInit 0 "hi" false (Except.ok r)).isLoading = false :=
  C5_failure_recovery sInit 0 "hi" false rfl (by decide)

/-- Claim C6: while a request is in flight, a further send, hint or
auto-trigger delivery is rejected: processMessage (and so handleSend and
handleHint) returns the state unchanged, and a delivered image appends no
turn. -/
theorem C6_pending_rejected (s : AppState) (now : Nat) (text : String)
    (auto : Bool) (o : Except Unit String) (img : Option UploadedImage)
    (h : s.isLoading = true) :
    processMessage s now text auto o = s
    ∧ handleSend s now o = s
    ∧ handleHint s now o = s
    ∧ (handleNewImage s img now o).1.messages = s.messages := by
  refine ⟨processMessage_loading s now text auto o h,
    processMessage_loading s now s.input false o h,
    processMessage_loading s now hintText true o h, ?_⟩
  cases img with
  | none => rfl
  | some u =>
      simp only [handleNewImage]
      split
      · rw [processMessage_loading
          { s with uploadedImage := some u, prevImageRef := some u.previewUrl }
          now autoAnalyzeText true o h]
      · rfl

/-- Witness for C6 at the concrete in-flight state. -/
theorem C6_witness :
    processMessage sPend 3 "x" false (Except.ok "r") = sPend
    ∧ handleSend sPend 3 (Except.ok "r") = sPend
    ∧ handleHint sPend 3 (Except.ok "r") = sPend
    ∧ (handleNewImage sPend none 3 (Except.ok "r")).1.messages = sPend.messages :=
  C6_pending_rejected sPend 3 "x" false (Except.ok "r") none rfl

/-- Claim C7: a second consecutive delivery of the same attachment identity
(compared by preview handle) issues no auto-trigger and appends nothing, so
two deliveries of one identity issue at most one send in total; delivering
null resets the tracking and sends nothing. -/
theorem C7_auto_trigger_once (s : AppState) (u : UploadedImage) (t1 t2 : Nat)
    (o1 o2 : Except Unit String) :
    (handleNewImage (handleNewImage s (some u) t1 o1).1 (some u) t2 o2).2 = 0
    ∧ (handleNewImage s (some u) t1 o1).2
        + (handleNewImage (handleNewImage s (some u) t1 o1).1 (some u) t2 o2).2 ≤ 1
    ∧ (handleNewImage (handleNewImage s (some u) t1 o1).1 (some u) t2 o2).1.messages
        = (handleNewImage s (some u) t1 o1).1.messages
    ∧ (handleNewImage s none t1 o1).2 = 0
    ∧ (handleNewImage s none t1 o1).1.prevImageRef = none
    ∧ (handleNewImage s none t1 o1).1.messages = s.messages := by
  have hsame : ∀ s2 : AppState, s2.prevImageRef = some u.previewUrl →
      handleNewImage s2 (some u) t2 o2 = ({ s2 with uploadedImage := some u }, 0) := by
    intro s2 h2
    simp only [handleNewImage]
    rw [if_neg (not_not_intro h2.symm)]
  have hsecond := hsame (handleNewImage s (some u) t1 o1).1
    (handleNewImage_prevImageRef s u t1 o1)
  have hfirst : (handleNewImage s (some u) t1 o1).2 ≤ 1 := by
    simp only [handleNewImage]
    split <;> simp
  refine ⟨?_, ?_, ?_, rfl, rfl, rfl⟩
  · rw [hsecond]
  · rw [hsecond]
    simpa using hfirst
  · rw [hsecond]

/-- Claim C8 counterexample: an oversized file with a non-image mime type is
rejected by the type check, which runs first, so its error is the
unsupported-type message and not the too-large one; the claim that every
oversized file gets the too-large error fails at this input. -/
theorem C8_counterexample :
    fOversize.size > 10 * 1024 * 1024
    ∧ (processFile sInit fOversize true).uploaderError = some unsupportedTypeText
    ∧ unsupportedTypeText ≠ tooLargeText := by decide

/-- Claim C8, amended: an image-typed file over 10 MiB is rejected with the
too-large error, and a file with a non-image mime type is rejected with the
unsupported-type error (the type check runs first); in both cases the
attachment and the conversation store are unchanged. -/
theorem C8_amended_validation (s : AppState) (f : FileInfo) (r : Bool) :
    (jsStartsWith f.ftype "image/" = true → f.size > 10 * 1024 * 1024 →
      (processFile s f r).uploaderError = some tooLargeText
      ∧ (processFile s f r).uploadedImage = s.uploadedImage
      ∧ (processFile s f r).messages = s.messages)
    ∧ (jsStartsWith f.ftype "image/" = false →
      (processFile s f r).uploaderError = some unsupportedTypeText
      ∧ (processFile s f r).uploadedImage = s.uploadedImage
      ∧ (processFile s f r).messages = s.messages) := by
  constructor
  · intro h1 h2
    simp [processFile, h1, h2]
  · intro h1
    simp [processFile, h1]

/-- Witness for the amended C8 on a 12 MiB jpeg. -/
theorem C8_witness :
    (processFile sInit fBigJpeg true).uploaderError = some tooLargeText
    ∧ (processFile sInit fBigJpeg true).uploadedImage = sInit.uploadedImage
    ∧ (processFile sInit fBigJpeg true).messages = sInit.messages :=
  (C8_amended_validation sInit fBigJpeg true).1 (by decide) (by decide)

/-- Claim C9: with no attachment and blank (or all-whitespace) input, the
send handler is a no-op: the state is returned unchanged. -/
theorem C9_empty_send_noop (s : AppState) (now : Nat) (o : Except Unit String)
    (h1 : s.uploadedImage = none) (h2 : jsTrim s.input = "") :
    handleSend s now o = s := by
  simp [handleSend, processMessage, h2]

/-- Witness for C9 at the fresh state. -/
theorem C9_witness : handleSend sInit 2 (Except.ok "r") = sInit :=
  C9_empty_send_noop sInit 2 (Except.ok "r") rfl rfl

/-- Claim C10: on a non-throwing remote call the returned string is never
empty: an empty or missing response text is replaced by the fixed
fallback. -/
theorem C10_nonempty_response (responseText : Option String) :
    geminiText responseText ≠ "" := by
  cases responseText with
  | none => decide
  | some t =>
      simp only [geminiText]
      by_cases h : t = ""
      · rw [if_pos h]; decide
      · rw [if_neg h]; exact h

end SocraticWhiteboard
